import Mathlib

/-!
Verification of the core resolution/normalization pipeline of the `jusdata`
repository (`src/datajud_agent.py`).  The Python source is shallowly embedded:
strings are modelled as `String` / `List Char` (ASCII character classes stand
for the source's regex classes `\d` and `\w`), dictionaries built by the query
builders are modelled by an explicit `Json` inductive, and the Elasticsearch
response shape consumed by `format_response` is modelled by structures whose
`Option` fields correspond exactly to key presence/absence handled by the
source's `dict.get(key, default)` chains.
-/

namespace Jusdata

/-- JSON-like values, the shape of the dictionaries built and consumed by the
agent (`build_process_number_query`, `build_text_search_query`). -/
inductive Json where
  | str : String → Json
  | num : Nat → Json
  | arr : List Json → Json
  | obj : List (String × Json) → Json

/-- `COURT_ENDPOINTS` from `datajud_agent.py` (lines 40-137): court code to
endpoint segment, as an association list in source order. -/
def COURT_ENDPOINTS : List (String × String) :=
  [("trf1", "api_publica_trf1"), ("trf2", "api_publica_trf2"),
   ("trf3", "api_publica_trf3"), ("trf4", "api_publica_trf4"),
   ("trf5", "api_publica_trf5"), ("trf6", "api_publica_trf6"),
   ("tst", "api_publica_tst"), ("stj", "api_publica_stj"),
   ("stf", "api_publica_stf"),
   ("tre-ac", "api_publica_tre-ac"), ("tre-al", "api_publica_tre-al"),
   ("tre-am", "api_publica_tre-am"), ("tre-ap", "api_publica_tre-ap"),
   ("tre-ba", "api_publica_tre-ba"), ("tre-ce", "api_publica_tre-ce"),
   ("tre-dft", "api_publica_tre-dft"), ("tre-es", "api_publica_tre-es"),
   ("tre-go", "api_publica_tre-go"), ("tre-ma", "api_publica_tre-ma"),
   ("tre-mg", "api_publica_tre-mg"), ("tre-ms", "api_publica_tre-ms"),
   ("tre-mt", "api_publica_tre-mt"), ("tre-pa", "api_publica_tre-pa"),
   ("tre-pb", "api_publica_tre-pb"), ("tre-pe", "api_publica_tre-pe"),
   ("tre-pi", "api_publica_tre-pi"), ("tre-pr", "api_publica_tre-pr"),
   ("tre-rj", "api_publica_tre-rj"), ("tre-rn", "api_publica_tre-rn"),
   ("tre-ro", "api_publica_tre-ro"), ("tre-rr", "api_publica_tre-rr"),
   ("tre-rs", "api_publica_tre-rs"), ("tre-sc", "api_publica_tre-sc"),
   ("tre-se", "api_publica_tre-se"), ("tre-sp", "api_publica_tre-sp"),
   ("tre-to", "api_publica_tre-to"),
   ("tjac", "api_publica_tjac"), ("tjal", "api_publica_tjal"),
   ("tjam", "api_publica_tjam"), ("tjap", "api_publica_tjap"),
   ("tjba", "api_publica_tjba"), ("tjce", "api_publica_tjce"),
   ("tjdft", "api_publica_tjdft"), ("tjes", "api_publica_tjes"),
   ("tjgo", "api_publica_tjgo"), ("tjma", "api_publica_tjma"),
   ("tjmg", "api_publica_tjmg"), ("tjms", "api_publica_tjms"),
   ("tjmt", "api_publica_tjmt"), ("tjpa", "api_publica_tjpa"),
   ("tjpb", "api_publica_tjpb"), ("tjpe", "api_publica_tjpe"),
   ("tjpi", "api_publica_tjpi"), ("tjpr", "api_publica_tjpr"),
   ("tjrj", "api_publica_tjrj"), ("tjrn", "api_publica_tjrn"),
   ("tjro", "api_publica_tjro"), ("tjrr", "api_publica_tjrr"),
   ("tjrs", "api_publica_tjrs"), ("tjsc", "api_publica_tjsc"),
   ("tjse", "api_publica_tjse"), ("tjsp", "api_publica_tjsp"),
   ("tjto", "api_publica_tjto"),
   ("trt1", "api_publica_trt1"), ("trt2", "api_publica_trt2"),
   ("trt3", "api_publica_trt3"), ("trt4", "api_publica_trt4"),
   ("trt5", "api_publica_trt5"), ("trt6", "api_publica_trt6"),
   ("trt7", "api_publica_trt7"), ("trt8", "api_publica_trt8"),
   ("trt9", "api_publica_trt9"), ("trt10", "api_publica_trt10"),
   ("trt11", "api_publica_trt11"), ("trt12", "api_publica_trt12"),
   ("trt13", "api_publica_trt13"), ("trt14", "api_publica_trt14"),
   ("trt15", "api_publica_trt15"), ("trt16", "api_publica_trt16"),
   ("trt17", "api_publica_trt17"), ("trt18", "api_publica_trt18"),
   ("trt19", "api_publica_trt19"), ("trt20", "api_publica_trt20"),
   ("trt21", "api_publica_trt21"), ("trt22", "api_publica_trt22"),
   ("trt23", "api_publica_trt23"), ("trt24", "api_publica_trt24")]

/-- Endpoint lookup, the source's `COURT_ENDPOINTS[court_code]` guarded by
`court_code not in COURT_ENDPOINTS` (`query_api`, lines 415-418). -/
def courtEndpoint (code : String) : Option String :=
  COURT_ENDPOINTS.lookup code

/-- `COURT_CODE_MAPPING` from `datajud_agent.py` (lines 141-242): justice-type
digit to (court-id to court-code) table, in source order.  Justice type "5"
(military) is declared with no entries, exactly as in the source. -/
def COURT_CODE_MAPPING : List (String × List (String × String)) :=
  [("1", [("01", "trf1"), ("02", "trf2"), ("03", "trf3"),
          ("04", "trf4"), ("05", "trf5"), ("06", "trf6")]),
   ("2", [("01", "tjac"), ("02", "tjal"), ("03", "tjap"), ("04", "tjam"),
          ("05", "tjba"), ("06", "tjce"), ("07", "tjdft"), ("08", "tjes"),
          ("09", "tjgo"), ("10", "tjma"), ("11", "tjmg"), ("12", "tjms"),
          ("13", "tjmt"), ("14", "tjpa"), ("15", "tjpb"), ("16", "tjpe"),
          ("17", "tjpi"), ("18", "tjpr"), ("19", "tjrj"), ("20", "tjrn"),
          ("21", "tjro"), ("22", "tjrr"), ("23", "tjrs"), ("24", "tjsc"),
          ("25", "tjse"), ("26", "tjsp"), ("27", "tjto")]),
   ("3", [("01", "trt1"), ("02", "trt2"), ("03", "trt3"), ("04", "trt4"),
          ("05", "trt5"), ("06", "trt6"), ("07", "trt7"), ("08", "trt8"),
          ("09", "trt9"), ("10", "trt10"), ("11", "trt11"), ("12", "trt12"),
          ("13", "trt13"), ("14", "trt14"), ("15", "trt15"), ("16", "trt16"),
          ("17", "trt17"), ("18", "trt18"), ("19", "trt19"), ("20", "trt20"),
          ("21", "trt21"), ("22", "trt22"), ("23", "trt23"), ("24", "trt24")]),
   ("4", [("01", "tre-ac"), ("02", "tre-al"), ("03", "tre-ap"),
          ("04", "tre-am"), ("05", "tre-ba"), ("06", "tre-ce"),
          ("07", "tre-dft"), ("08", "tre-es"), ("09", "tre-go"),
          ("10", "tre-ma"), ("11", "tre-mg"), ("12", "tre-ms"),
          ("13", "tre-mt"), ("14", "tre-pa"), ("15", "tre-pb"),
          ("16", "tre-pe"), ("17", "tre-pi"), ("18", "tre-pr"),
          ("19", "tre-rj"), ("20", "tre-rn"), ("21", "tre-ro"),
          ("22", "tre-rr"), ("23", "tre-rs"), ("24", "tre-sc"),
          ("25", "tre-se"), ("26", "tre-sp"), ("27", "tre-to")]),
   ("5", []),
   ("6", [("00", "stf"), ("01", "stj"), ("02", "tst")])]

/-- The two-level table lookup performed by
`identify_court_from_process_number` (line 322):
`justice_type in COURT_CODE_MAPPING and court_id in COURT_CODE_MAPPING[justice_type]`,
then indexing; absence at either level yields `none`. -/
def courtCodeLookup (justice_type court_id : String) : Option String :=
  (COURT_CODE_MAPPING.lookup justice_type).bind fun sub => sub.lookup court_id

/-- Character classes occurring in the source regex
`\b\d{7}-\d{2}\.\d{4}\.\d\.\d{2}\.\d{4}\b` (line 291): a digit class `\d`
(modelled as an ASCII digit) or a literal character. -/
inductive CNJClass where
  | digit : CNJClass
  | lit : Char → CNJClass

/-- Whether one character matches one class of the pattern. -/
def matchesClass : CNJClass → Char → Bool
  | .digit, c => c.isDigit
  | .lit a, c => c == a

/-- The fixed-length body of the CNJ identifier regex, position by position:
7 digits, `-`, 2 digits, `.`, 4 digits, `.`, 1 digit, `.`, 2 digits, `.`,
4 digits (25 characters in total). -/
def cnjPattern : List CNJClass :=
  [.digit, .digit, .digit, .digit, .digit, .digit, .digit, .lit '-',
   .digit, .digit, .lit '.', .digit, .digit, .digit, .digit, .lit '.',
   .digit, .lit '.', .digit, .digit, .lit '.', .digit, .digit, .digit, .digit]

/-- Pointwise matching of a character list against a class list; fails unless
the lengths agree. -/
def matchesShape : List CNJClass → List Char → Bool
  | [], [] => true
  | p :: ps, c :: cs => matchesClass p c && matchesShape ps cs
  | _, _ => false

/-- Regex word character (`\w`), in its ASCII reading: letters, digits, `_`. -/
def isWordChar (c : Char) : Bool :=
  c.isAlphanum || c == '_'

/-- The `\b` condition on the left of the match starting at index `i`: start
of string, or previous character not a word character (the first pattern
character is a digit, hence a word character). -/
def boundaryBefore (s : List Char) (i : Nat) : Bool :=
  decide (i = 0) || !isWordChar (s.getD (i - 1) ' ')

/-- The `\b` condition on the right of a match ending just before index `j`:
end of string, or character at `j` not a word character (the last pattern
character is a digit, hence a word character). -/
def boundaryAfter (s : List Char) (j : Nat) : Bool :=
  decide (s.length ≤ j) || !isWordChar (s.getD j ' ')

/-- Whether the full regex (shape plus both word boundaries) matches at start
index `i` of `s`. -/
def matchesAt (s : List Char) (i : Nat) : Bool :=
  matchesShape cnjPattern ((s.drop i).take 25) &&
    boundaryBefore s i && boundaryAfter s (i + 25)

/-- Leftmost-match scan of `re.search`: try `i`, then `i+1`, ... while fuel
remains. -/
def firstMatchAux (s : List Char) : Nat → Nat → Option Nat
  | 0, _ => none
  | fuel + 1, i => if matchesAt s i then some i else firstMatchAux s fuel (i + 1)

/-- Index of the leftmost regex match in `s`, if any. -/
def firstMatch (s : List Char) : Option Nat :=
  firstMatchAux s (s.length + 1) 0

/-- `DatajudAgent.extract_process_number` (lines 271-300): `re.search` of
`\b\d{7}-\d{2}\.\d{4}\.\d\.\d{2}\.\d{4}\b`, returning the matched substring
verbatim, or `None`. -/
def extract_process_number (s : List Char) : Option (List Char) :=
  (firstMatch s).map fun i => (s.drop i).take 25

/-- Whether the bare grammar `\d{7}-\d{2}\.\d{4}\.\d\.\d{2}\.\d{4}` (no word
boundaries) matches at index `i`.  Spec-side definition, following the
claim's words, used to compare with the source's boundary-delimited search. -/
def matchesBareAt (s : List Char) (i : Nat) : Bool :=
  matchesShape cnjPattern ((s.drop i).take 25)

/-- Whether `s` contains any substring matching the bare grammar.  Spec-side
definition following the claim's words (no word boundaries). -/
def containsBareMatch (s : List Char) : Bool :=
  (List.range (s.length + 1)).any (matchesBareAt s)

/-- Python's `str.split('.')` on a character list: `"".split('.') = [""]`,
separators delimit (possibly empty) fields. -/
def splitOnDot : List Char → List (List Char)
  | [] => [[]]
  | c :: rest =>
    let r := splitOnDot rest
    if c = '.' then [] :: r else (c :: r.headD []) :: r.tail

/-- `DatajudAgent.identify_court_from_process_number` (lines 302-332): split
the identifier on `.`, require exactly 5 parts, then look up
`(justice_type, court_id) = (parts[2], parts[3])` in `COURT_CODE_MAPPING`. -/
def identify_court_from_process_number (pn : List Char) : Option String :=
  let parts := splitOnDot pn
  if parts.length ≠ 5 then none
  else courtCodeLookup (parts.getD 2 []).asString (parts.getD 3 []).asString

/-- `DatajudAgent.build_process_number_query` (lines 334-363).  The source also
computes an unused local `clean_number`; the query embeds the identifier
verbatim.  `MAX_RESULTS = 100`. -/
def build_process_number_query (process_number : String) : Json :=
  .obj [("query", .obj [("bool", .obj [("must", .arr
          [.obj [("match", .obj [("numeroProcesso", .str process_number)])]])])]),
        ("size", .num 100)]

/-- `DatajudAgent.build_text_search_query` (lines 365-398): single-field
`match` when a field is given, otherwise `multi_match` over the four fixed
fields.  `MAX_RESULTS = 100`. -/
def build_text_search_query (text : String) (field : Option String) : Json :=
  match field with
  | some f => .obj [("query", .obj [("match", .obj [(f, .str text)])]),
                    ("size", .num 100)]
  | none => .obj [("query", .obj [("multi_match", .obj
               [("query", .str text),
                ("fields", .arr [.str "classe.nome", .str "assunto.nome",
                                 .str "orgaoJulgador.nome",
                                 .str "dadosBasicos.valorCausa"])])]),
              ("size", .num 100)]

/-- The identifier branch of `DatajudAgent.process_query` (lines 542-550):
given an extracted process number, identify the court; `None` raises
`ValueError` (modelled as `Except.error` with the source's message),
otherwise build the exact-match query. -/
def route_identified (pn : List Char) : Except String (String × Json) :=
  match identify_court_from_process_number pn with
  | none =>
    Except.error ("Could not identify court for process number: " ++ pn.asString)
  | some court_code => Except.ok (court_code, build_process_number_query pn.asString)

/-- The routing portion of `DatajudAgent.process_query` (lines 540-558): the
pair (court code, query body) handed to `query_api`, or the raised
`ValueError`.  With no extracted identifier the court defaults to `"stf"`
and the query is the multi-field text search. -/
def process_query_route (text : String) : Except String (String × Json) :=
  match extract_process_number text.toList with
  | some pn => route_identified pn
  | none => Except.ok ("stf", build_text_search_query text none)

/-! ## Response normalization (`format_response`, lines 453-515)

The raw Elasticsearch response is modelled by structures whose `Option`
fields record key presence: `x.get(k, default)` in the source corresponds to
`Option.getD` here.  Leaf values are strings (the consumed schema's leaves);
`hits.total.value` is a natural number. -/

/-- A `pessoa` object: `nome`, `numeroDocumentoPrincipal`, each optional. -/
structure RawPessoa where
  nome : Option String
  numeroDocumentoPrincipal : Option String
deriving DecidableEq

/-- An entry of `partes[].advogados`: optional `pessoa`. -/
structure RawAdvogado where
  pessoa : Option RawPessoa
deriving DecidableEq

/-- An entry of `partes`: optional `tipo`, `pessoa`, `advogados`. -/
structure RawParte where
  tipo : Option String
  pessoa : Option RawPessoa
  advogados : Option (List RawAdvogado)
deriving DecidableEq

/-- An entry of `movimentos`: optional `data`, `nome`, `complemento`. -/
structure RawMovimento where
  data : Option String
  nome : Option String
  complemento : Option String
deriving DecidableEq

/-- An object carrying an optional `nome` (`classe`, `assunto`,
`orgaoJulgador`). -/
structure RawNamed where
  nome : Option String
deriving DecidableEq

/-- The `dadosBasicos` object: optional `dataAjuizamento`, `valorCausa`. -/
structure RawDadosBasicos where
  dataAjuizamento : Option String
  valorCausa : Option String
deriving DecidableEq

/-- A hit's `_source` object. -/
structure RawSource where
  numeroProcesso : Option String
  classe : Option RawNamed
  assunto : Option RawNamed
  dadosBasicos : Option RawDadosBasicos
  orgaoJulgador : Option RawNamed
  partes : Option (List RawParte)
  movimentos : Option (List RawMovimento)
deriving DecidableEq

/-- An element of `hits.hits`: optional `_source`. -/
structure RawHit where
  source : Option RawSource
deriving DecidableEq

/-- The `hits.total` object: optional `value`. -/
structure RawTotal where
  value : Option Nat
deriving DecidableEq

/-- The `hits` object: optional `total` and `hits`. -/
structure RawHits where
  total : Option RawTotal
  hits : Option (List RawHit)
deriving DecidableEq

/-- A raw API response: optional `hits`. -/
structure RawResponse where
  hits : Option RawHits
deriving DecidableEq

/-- The empty dict default of `parte.get("pessoa", {})` etc. -/
def emptyRawPessoa : RawPessoa := ⟨none, none⟩

/-- The empty dict default of `source.get("classe", {})` etc. -/
def emptyRawNamed : RawNamed := ⟨none⟩

/-- The empty dict default of `source.get("dadosBasicos", {})`. -/
def emptyRawDadosBasicos : RawDadosBasicos := ⟨none, none⟩

/-- The empty dict default of `hit.get("_source", {})`. -/
def emptyRawSource : RawSource := ⟨none, none, none, none, none, none, none⟩

/-- The empty dict default of `hits.get("total", {})`. -/
def emptyRawTotal : RawTotal := ⟨none⟩

/-- The empty dict default of `response.get("hits", {})`. -/
def emptyRawHits : RawHits := ⟨none, none⟩

/-- A formatted lawyer record (`lawyer` dict, lines 495-498). -/
structure Advogado where
  nome : String
  documento : String
deriving DecidableEq

/-- A formatted party record (`party` dict, lines 486-491). -/
structure Parte where
  tipo : String
  nome : String
  documento : String
  advogados : List Advogado
deriving DecidableEq

/-- A formatted movement record (`movement` dict, lines 506-510). -/
structure Movimento where
  data : String
  nome : String
  complemento : String
deriving DecidableEq

/-- A formatted process record (`process` dict, lines 474-482). -/
structure Processo where
  numero_processo : String
  classe : String
  assunto : String
  data_ajuizamento : String
  valor_causa : String
  orgao_julgador : String
  partes : List Parte
  movimentos : List Movimento
deriving DecidableEq

/-- The value returned by `format_response` (lines 463-466, 513-515). -/
structure FormattedResponse where
  total_hits : Nat
  processes : List Processo
deriving DecidableEq

/-- Lines 494-499: one lawyer record from one `advogados` entry. -/
def format_advogado (a : RawAdvogado) : Advogado :=
  let p := a.pessoa.getD emptyRawPessoa
  ⟨p.nome.getD "N/A", p.numeroDocumentoPrincipal.getD "N/A"⟩

/-- Lines 485-501: one party record from one `partes` entry, lawyers in input
order. -/
def format_parte (pa : RawParte) : Parte :=
  let p := pa.pessoa.getD emptyRawPessoa
  ⟨pa.tipo.getD "N/A", p.nome.getD "N/A",
   p.numeroDocumentoPrincipal.getD "N/A",
   (pa.advogados.getD []).map format_advogado⟩

/-- Lines 505-511: one movement record from one `movimentos` entry. -/
def format_movimento (m : RawMovimento) : Movimento :=
  ⟨m.data.getD "N/A", m.nome.getD "N/A", m.complemento.getD "N/A"⟩

/-- Lines 473-511: one process record from a hit's `_source`, with `"N/A"` at
every absent leaf and `partes` / `movimentos` in input order. -/
def format_source (s : RawSource) : Processo :=
  { numero_processo := s.numeroProcesso.getD "N/A"
    classe := (s.classe.getD emptyRawNamed).nome.getD "N/A"
    assunto := (s.assunto.getD emptyRawNamed).nome.getD "N/A"
    data_ajuizamento :=
      (s.dadosBasicos.getD emptyRawDadosBasicos).dataAjuizamento.getD "N/A"
    valor_causa :=
      (s.dadosBasicos.getD emptyRawDadosBasicos).valorCausa.getD "N/A"
    orgao_julgador := (s.orgaoJulgador.getD emptyRawNamed).nome.getD "N/A"
    partes := (s.partes.getD []).map format_parte
    movimentos := (s.movimentos.getD []).map format_movimento }

/-- Line 471: `source = hit.get("_source", {})`, then the record build. -/
def format_hit (h : RawHit) : Processo :=
  format_source (h.source.getD emptyRawSource)

/-- `DatajudAgent.format_response` (lines 453-515): `total_hits` from
`hits.total.value` with default 0, one process record per element of
`hits.hits` in input order. -/
def format_response (r : RawResponse) : FormattedResponse :=
  let hs := r.hits.getD emptyRawHits
  { total_hits := (hs.total.getD emptyRawTotal).value.getD 0
    processes := (hs.hits.getD []).map format_hit }

/-- Number of `'.'` characters in a character list (the dots of an
identifier, which determine the length of `splitOnDot`). -/
def countDots : List Char → Nat
  | [] => 0
  | c :: rest => (if c = '.' then 1 else 0) + countDots rest

/-- Whether a pattern class can only match `'.'`. -/
def isDotClass : CNJClass → Bool
  | .lit a => a == '.'
  | .digit => false

/-- Number of dot classes in a pattern. -/
def classDots : List CNJClass → Nat
  | [] => 0
  | p :: rest => (if isDotClass p then 1 else 0) + classDots rest

/-- The `"size"` entry of a built query body. -/
def querySize (q : Json) : Option Json :=
  match q with
  | .obj fields => fields.lookup "size"
  | _ => none

/-! ## Helper lemmas -/

/-- A successful association-list lookup exhibits its pair as a member. -/
theorem lookup_mem {β : Type} {l : List (String × β)} {a : String} {b : β}
    (h : l.lookup a = some b) : (a, b) ∈ l := by
  induction l with
  | nil => simp [List.lookup] at h
  | cons p t ih =>
    obtain ⟨k, v⟩ := p
    cases hk : (a == k) with
    | true =>
      have hka : a = k := eq_of_beq hk
      simp only [List.lookup, hk, Option.some.injEq] at h
      subst hka; subst h
      exact List.mem_cons_self _ _
    | false =>
      simp only [List.lookup, hk] at h
      exact List.mem_cons_of_mem _ (ih h)

/-- A successful scan yields a true match whose earlier positions (from the
scan start) all fail. -/
theorem firstMatchAux_eq_some {s : List Char} {fuel start i : Nat}
    (h : firstMatchAux s fuel start = some i) :
    matchesAt s i = true ∧ start ≤ i ∧
      ∀ j, start ≤ j → j < i → matchesAt s j = false := by
  induction fuel generalizing start with
  | zero => simp [firstMatchAux] at h
  | succ fuel ih =>
    rw [firstMatchAux] at h
    by_cases hm : matchesAt s start = true
    · rw [if_pos hm] at h
      simp only [Option.some.injEq] at h
      subst h
      exact ⟨hm, Nat.le_refl _, fun j h1 h2 => absurd h1 (Nat.not_le_of_lt h2)⟩
    · rw [if_neg hm] at h
      obtain ⟨hmi, hle, hbefore⟩ := ih h
      refine ⟨hmi, Nat.le_trans (Nat.le_succ _) hle, fun j h1 h2 => ?_⟩
      by_cases hj : start + 1 ≤ j
      · exact hbefore j hj h2
      · have : j = start := by omega
        subst this
        exact Bool.eq_false_iff.mpr hm

/-- A failed scan means every position in the scanned window fails. -/
theorem firstMatchAux_eq_none {s : List Char} {fuel start : Nat}
    (h : firstMatchAux s fuel start = none) :
    ∀ j, start ≤ j → j < start + fuel → matchesAt s j = false := by
  induction fuel generalizing start with
  | zero => intro j h1 h2; omega
  | succ fuel ih =>
    rw [firstMatchAux] at h
    by_cases hm : matchesAt s start = true
    · rw [if_pos hm] at h; exact absurd h (by simp)
    · rw [if_neg hm] at h
      intro j h1 h2
      by_cases hj : start + 1 ≤ j
      · exact ih h j hj (by omega)
      · have : j = start := by omega
        subst this
        exact Bool.eq_false_iff.mpr hm

/-- Shape matching forces the candidate to have the pattern's length. -/
theorem matchesShape_length :
    ∀ (ps : List CNJClass) (cs : List Char),
      matchesShape ps cs = true → cs.length = ps.length := by
  intro ps
  induction ps with
  | nil => intro cs h; cases cs with
    | nil => rfl
    | cons c cs => simp [matchesShape] at h
  | cons p ps ih =>
    intro cs h
    cases cs with
    | nil => simp [matchesShape] at h
    | cons c cs =>
      rw [matchesShape, Bool.and_eq_true] at h
      simp [ih cs h.2]

/-- A full regex match starting at `i` fits inside the string. -/
theorem matchesAt_le_length {s : List Char} {i : Nat}
    (h : matchesAt s i = true) : i + 25 ≤ s.length := by
  rw [matchesAt, Bool.and_eq_true, Bool.and_eq_true] at h
  have hlen := matchesShape_length _ _ h.1.1
  have h25 : cnjPattern.length = 25 := rfl
  rw [h25, List.length_take, List.length_drop] at hlen
  omega

/-- Shape matching fixes the number of dots in the candidate: digit classes
and non-dot literals never match `'.'`, dot literals match only `'.'`. -/
theorem countDots_of_shape :
    ∀ (ps : List CNJClass) (cs : List Char),
      matchesShape ps cs = true → countDots cs = classDots ps := by
  intro ps
  induction ps with
  | nil => intro cs h; cases cs with
    | nil => rfl
    | cons c cs => simp [matchesShape] at h
  | cons p ps ih =>
    intro cs h
    cases cs with
    | nil => simp [matchesShape] at h
    | cons c cs =>
      rw [matchesShape, Bool.and_eq_true] at h
      have htail := ih cs h.2
      have hhead : (if c = '.' then 1 else 0) = (if isDotClass p then 1 else 0) := by
        cases p with
        | digit =>
          have hd : c.isDigit = true := h.1
          have hne : c ≠ '.' := by
            intro hc; subst hc; simp [Char.isDigit] at hd
          simp [isDotClass, hne]
        | lit a =>
          have hca : c = a := eq_of_beq h.1
          subst hca
          by_cases hc : c = '.'
          · subst hc; simp [isDotClass]
          · simp [isDotClass, hc, beq_iff_eq]
      rw [countDots, classDots, hhead, htail]

/-- `splitOnDot` never returns the empty list. -/
theorem splitOnDot_ne_nil : ∀ l : List Char, splitOnDot l ≠ [] := by
  intro l
  cases l with
  | nil => simp [splitOnDot]
  | cons c rest =>
    rw [splitOnDot]
    by_cases hc : c = '.' <;> simp [hc]

/-- The number of fields produced by `splitOnDot` is one more than the number
of dots. -/
theorem splitOnDot_length :
    ∀ l : List Char, (splitOnDot l).length = countDots l + 1 := by
  intro l
  induction l with
  | nil => rfl
  | cons c rest ih =>
    have hne := splitOnDot_ne_nil rest
    cases hr : splitOnDot rest with
    | nil => exact absurd hr hne
    | cons p ps =>
      rw [hr] at ih
      simp only [List.length_cons] at ih
      by_cases hc : c = '.' <;> simp [splitOnDot, countDots, hr, hc] <;> omega

/-- The CNJ pattern has exactly four dot classes. -/
theorem classDots_cnjPattern : classDots cnjPattern = 4 := rfl

/-- Every value of `COURT_CODE_MAPPING` is a key of `COURT_ENDPOINTS`. -/
theorem mapping_values_have_endpoints :
    COURT_CODE_MAPPING.all
      (fun p => p.2.all (fun q => (courtEndpoint q.2).isSome)) = true := by
  decide

/-- Any court code produced by the classification-table lookup has an
endpoint. -/
theorem courtCodeLookup_endpoint_isSome {jt cid code : String}
    (h : courtCodeLookup jt cid = some code) :
    (courtEndpoint code).isSome = true := by
  rw [courtCodeLookup, Option.bind_eq_some] at h
  obtain ⟨sub, hsub, hcode⟩ := h
  have hmem1 := lookup_mem hsub
  have hmem2 := lookup_mem hcode
  have hall := List.all_eq_true.mp mapping_values_have_endpoints _ hmem1
  exact List.all_eq_true.mp hall _ hmem2

/-! ## Claim theorems -/

/-- C1 (counterexample): the claim "for every string containing a substring
matching the grammar `\d{7}-\d{2}\.\d{4}\.\d\.\d{2}\.\d{4}`,
`extract_process_number` returns the first such substring" is false: the
string `"a1234567-89.2020.1.01.0000"` contains a bare-grammar substring (from
index 1), yet the source regex is word-boundary delimited and the preceding
`'a'` is a word character, so extraction returns `None`. -/
theorem extract_bare_grammar_counterexample :
    containsBareMatch ("a1234567-89.2020.1.01.0000".toList) = true ∧
      extract_process_number ("a1234567-89.2020.1.01.0000".toList) = none := by
  constructor
  · decide
  · decide

/-- C1 (amended): `extract_process_number` returns the first
word-boundary-delimited substring matching the grammar (preceded by start of
string or a non-word character and followed by end of string or a non-word
character), verbatim, and returns `None` exactly when no such delimited match
exists. -/
theorem extract_first_delimited_match (s : List Char) :
    (extract_process_number s = none → ∀ i, matchesAt s i = false) ∧
      (∀ w, extract_process_number s = some w →
        ∃ i, matchesAt s i = true ∧ (∀ j, j < i → matchesAt s j = false) ∧
          w = (s.drop i).take 25) := by
  constructor
  · intro h i
    rw [extract_process_number, Option.map_eq_none'] at h
    cases hb : matchesAt s i with
    | false => rfl
    | true =>
      exfalso
      have hle := matchesAt_le_length hb
      have hall := firstMatchAux_eq_none h i (Nat.zero_le _) (by omega)
      rw [hb] at hall
      exact absurd hall (by simp)
  · intro w h
    rw [extract_process_number, Option.map_eq_some'] at h
    obtain ⟨i, hi, hw⟩ := h
    obtain ⟨hm, -, hbefore⟩ := firstMatchAux_eq_some hi
    exact ⟨i, hm, fun j hj => hbefore j (Nat.zero_le _) hj, hw.symm⟩

/-- C1 (witness): the amended claim instantiated: `"sem numero"` has no match
anywhere (extraction returns `None`), and extraction on
`"ver 1234567-89.2020.2.26.0000 fim"` returns the leftmost delimited match. -/
theorem extract_first_delimited_match_witness :
    matchesAt ("sem numero".toList) 0 = false ∧
      (∃ i, matchesAt ("ver 1234567-89.2020.2.26.0000 fim".toList) i = true ∧
        (∀ j, j < i →
          matchesAt ("ver 1234567-89.2020.2.26.0000 fim".toList) j = false) ∧
        "1234567-89.2020.2.26.0000".toList =
          (("ver 1234567-89.2020.2.26.0000 fim".toList).drop i).take 25) :=
  ⟨(extract_first_delimited_match _).1 (by decide) 0,
   (extract_first_delimited_match _).2 _ (by decide)⟩

/-- C9: any identifier returned by `extract_process_number` splits on `'.'`
into exactly 5 segments, so the `len(parts) != 5` branch of
`identify_court_from_process_number` is unreachable for extracted
identifiers. -/
theorem extracted_identifier_has_five_segments (s pn : List Char)
    (h : extract_process_number s = some pn) :
    (splitOnDot pn).length = 5 := by
  rw [extract_process_number, Option.map_eq_some'] at h
  obtain ⟨i, hi, hpn⟩ := h
  have hm := (firstMatchAux_eq_some hi).1
  rw [matchesAt, Bool.and_eq_true, Bool.and_eq_true] at hm
  have hshape := hm.1.1
  rw [splitOnDot_length, ← hpn, countDots_of_shape _ _ hshape,
    classDots_cnjPattern]

/-- C9 (witness): the theorem applied to a concrete extraction. -/
theorem extracted_identifier_has_five_segments_witness :
    (splitOnDot ("1234567-89.2020.2.26.0000".toList)).length = 5 :=
  extracted_identifier_has_five_segments
    ("ver 1234567-89.2020.2.26.0000 fim".toList)
    ("1234567-89.2020.2.26.0000".toList) (by decide)

/-- C2 (counterexample): the claim says an identifier whose split is not
exactly 5 segments makes processing fall through to the free-text
MultiFieldMatch path; in the code, once an identifier is extracted, a failed
court identification raises `ValueError` (modelled by `Except.error`), so for
the malformed identifier `"1234567-89.2020.1.01"` (4 segments) the identifier
branch of `process_query` aborts instead of continuing. -/
theorem malformed_identifier_no_fallthrough_counterexample :
    route_identified ("1234567-89.2020.1.01".toList) =
      Except.error
        "Could not identify court for process number: 1234567-89.2020.1.01" := by
  rfl

/-- C2 (amended): for every identifier whose split on `'.'` does not yield
exactly 5 segments, `identify_court_from_process_number` returns `None`, and
the identifier branch of `process_query` then raises a `ValueError` carrying
the source's message — surfaced to the caller, not a fall-through to the
free-text MultiFieldMatch path. -/
theorem malformed_identifier_aborts (pn : List Char)
    (h : (splitOnDot pn).length ≠ 5) :
    identify_court_from_process_number pn = none ∧
      route_identified pn =
        Except.error
          ("Could not identify court for process number: " ++ pn.asString) := by
  have h1 : identify_court_from_process_number pn = none := by
    rw [identify_court_from_process_number]
    simp [h]
  refine ⟨h1, ?_⟩
  unfold route_identified
  rw [h1]

/-- C2 (witness): the amended claim at the 4-segment identifier
`"1234567-89.2020.1"`. -/
theorem malformed_identifier_aborts_witness :
    identify_court_from_process_number ("1234567-89.2020.1".toList) = none ∧
      route_identified ("1234567-89.2020.1".toList) =
        Except.error
          "Could not identify court for process number: 1234567-89.2020.1" :=
  malformed_identifier_aborts ("1234567-89.2020.1".toList) (by decide)

/-- C3: the classification table returns `None` for every pair it does not
list (in particular every court id under justice type `"5"`), and when a
well-formed extracted identifier maps to no known court, `process_query`
raises a `ValueError` (modelled by `Except.error` with the source's message)
instead of falling back to any default court. -/
theorem unknown_court_surfaces_error :
    (∀ cid : String, courtCodeLookup "5" cid = none) ∧
      ∀ (text : String) (pn : List Char),
        extract_process_number text.toList = some pn →
        identify_court_from_process_number pn = none →
        process_query_route text =
          Except.error
            ("Could not identify court for process number: " ++ pn.asString) := by
  refine ⟨fun _ => rfl, ?_⟩
  intro text pn h1 h2
  rw [process_query_route, h1]
  show route_identified pn = _
  unfold route_identified
  rw [h2]

/-- C3 (witness): justice type 5 has no courts, so the extracted identifier
`"1234567-89.2020.5.01.0000"` is well-formed yet unroutable, and
`process_query` surfaces the error. -/
theorem unknown_court_surfaces_error_witness :
    courtCodeLookup "5" "01" = none ∧
      process_query_route "ver 1234567-89.2020.5.01.0000 fim" =
        Except.error
          "Could not identify court for process number: 1234567-89.2020.5.01.0000" :=
  ⟨unknown_court_surfaces_error.1 "01",
   unknown_court_surfaces_error.2 "ver 1234567-89.2020.5.01.0000 fim"
     ("1234567-89.2020.5.01.0000".toList) (by decide) (by rfl)⟩

/-- C5: when no identifier is found in the input text, `process_query` selects
the court code `"stf"` and builds the `multi_match` query over exactly the
four fixed fields `classe.nome`, `assunto.nome`, `orgaoJulgador.nome`,
`dadosBasicos.valorCausa`, in that order, with size 100. -/
theorem no_identifier_defaults_to_stf (text : String)
    (h : extract_process_number text.toList = none) :
    process_query_route text =
      Except.ok ("stf",
        Json.obj [("query", Json.obj [("multi_match", Json.obj
            [("query", Json.str text),
             ("fields", Json.arr [Json.str "classe.nome",
                                  Json.str "assunto.nome",
                                  Json.str "orgaoJulgador.nome",
                                  Json.str "dadosBasicos.valorCausa"])])]),
          ("size", Json.num 100)]) := by
  rw [process_query_route, h]
  rfl

/-- C5 (witness): the free-text query `"habeas corpus"` contains no
identifier and routes to the default. -/
theorem no_identifier_defaults_to_stf_witness :
    process_query_route "habeas corpus" =
      Except.ok ("stf",
        Json.obj [("query", Json.obj [("multi_match", Json.obj
            [("query", Json.str "habeas corpus"),
             ("fields", Json.arr [Json.str "classe.nome",
                                  Json.str "assunto.nome",
                                  Json.str "orgaoJulgador.nome",
                                  Json.str "dadosBasicos.valorCausa"])])]),
          ("size", Json.num 100)]) :=
  no_identifier_defaults_to_stf "habeas corpus" (by decide)

/-- C10: every court code stored as a value of `COURT_CODE_MAPPING` is a key
of `COURT_ENDPOINTS`, as is the default `"stf"`; consequently every court code
produced by `process_query`'s routing has an endpoint, and `query_api`'s
`ValueError` for an invalid court code is unreachable from that routing. -/
theorem routed_court_codes_have_endpoints :
    (∀ jt cid code : String,
       courtCodeLookup jt cid = some code → (courtEndpoint code).isSome = true) ∧
      (courtEndpoint "stf").isSome = true ∧
      ∀ (text code : String) (q : Json),
        process_query_route text = Except.ok (code, q) →
        (courtEndpoint code).isSome = true := by
  refine ⟨fun jt cid code h => courtCodeLookup_endpoint_isSome h, rfl, ?_⟩
  intro text code q h
  rw [process_query_route] at h
  cases hext : extract_process_number text.toList with
  | none =>
    rw [hext] at h
    simp only [Except.ok.injEq, Prod.mk.injEq] at h
    rw [← h.1]
    rfl
  | some pn =>
    rw [hext] at h
    have h2 : route_identified pn = Except.ok (code, q) := h
    unfold route_identified at h2
    cases hid : identify_court_from_process_number pn with
    | none => rw [hid] at h2; exact absurd h2 (by simp)
    | some court =>
      rw [hid] at h2
      simp only [Except.ok.injEq, Prod.mk.injEq] at h2
      rw [← h2.1]
      rw [identify_court_from_process_number] at hid
      by_cases hl : (splitOnDot pn).length ≠ 5
      · simp [hl] at hid
      · simp only [hl, if_false] at hid
        exact courtCodeLookup_endpoint_isSome hid

/-- C10 (witness): the theorem's table part at `("1", "01") ↦ "trf1"` and its
routing part at a concrete routed query. -/
theorem routed_court_codes_have_endpoints_witness :
    (courtEndpoint "trf1").isSome = true ∧
      (courtEndpoint "stf").isSome = true :=
  ⟨routed_court_codes_have_endpoints.1 "1" "01" "trf1" rfl,
   routed_court_codes_have_endpoints.2.2 "habeas corpus" "stf"
     (build_text_search_query "habeas corpus" none) (by rfl)⟩

/-- C4: round trip — the exact-match query built for identifier `X` matches on
`numeroProcesso = X`, and normalizing any response whose `hits.hits` is a
single hit with `_source.numeroProcesso = X` yields exactly one record whose
number field equals `X`. -/
theorem round_trip_single_hit (x : String) (src : RawSource) (r : RawResponse)
    (hx : src.numeroProcesso = some x)
    (hr : (r.hits.getD emptyRawHits).hits = some [⟨some src⟩]) :
    build_process_number_query x =
      Json.obj [("query", Json.obj [("bool", Json.obj [("must", Json.arr
          [Json.obj [("match", Json.obj [("numeroProcesso", Json.str x)])]])])]),
        ("size", Json.num 100)] ∧
      (format_response r).processes.length = 1 ∧
      (format_response r).processes.map (fun p => p.numero_processo) = [x] := by
  refine ⟨rfl, ?_, ?_⟩ <;>
    simp [format_response, hr, format_hit, format_source, hx]

/-- C4 (witness): the round trip at the concrete identifier
`"1234567-89.2020.2.26.0000"`. -/
theorem round_trip_single_hit_witness :
    build_process_number_query "1234567-89.2020.2.26.0000" =
      Json.obj [("query", Json.obj [("bool", Json.obj [("must", Json.arr
          [Json.obj [("match", Json.obj
            [("numeroProcesso", Json.str "1234567-89.2020.2.26.0000")])]])])]),
        ("size", Json.num 100)] ∧
      (format_response ⟨some ⟨some ⟨some 1⟩,
          some [⟨some ⟨some "1234567-89.2020.2.26.0000",
            none, none, none, none, none, none⟩⟩]⟩⟩).processes.length = 1 ∧
      (format_response ⟨some ⟨some ⟨some 1⟩,
          some [⟨some ⟨some "1234567-89.2020.2.26.0000",
            none, none, none, none, none, none⟩⟩]⟩⟩).processes.map
        (fun p => p.numero_processo) = ["1234567-89.2020.2.26.0000"] :=
  round_trip_single_hit "1234567-89.2020.2.26.0000"
    ⟨some "1234567-89.2020.2.26.0000", none, none, none, none, none, none⟩
    ⟨some ⟨some ⟨some 1⟩, some [⟨some ⟨some "1234567-89.2020.2.26.0000",
      none, none, none, none, none, none⟩⟩]⟩⟩ rfl rfl

/-- C6: `format_response` is total (never raises on missing optional data):
`hits.total.value` defaults to 0 when absent, every missing leaf of a record
(scalar, party, lawyer, and movement fields) is replaced by the sentinel
`"N/A"`, and a response with `hits.total.value = 0` and empty `hits.hits`
yields 0 total hits and no records. -/
theorem missing_data_defaults :
    (∀ r : RawResponse,
       ((r.hits.getD emptyRawHits).total.getD emptyRawTotal).value = none →
       (format_response r).total_hits = 0) ∧
      (∀ s : RawSource, s.numeroProcesso = none →
        (format_source s).numero_processo = "N/A") ∧
      (∀ pa : RawParte, pa.tipo = none → (format_parte pa).tipo = "N/A") ∧
      (∀ a : RawAdvogado, a.pessoa = none →
        (format_advogado a).nome = "N/A" ∧ (format_advogado a).documento = "N/A") ∧
      (∀ m : RawMovimento, m.data = none → (format_movimento m).data = "N/A") ∧
      format_source emptyRawSource =
        ⟨"N/A", "N/A", "N/A", "N/A", "N/A", "N/A", [], []⟩ ∧
      format_hit ⟨none⟩ = ⟨"N/A", "N/A", "N/A", "N/A", "N/A", "N/A", [], []⟩ ∧
      format_parte ⟨none, none, none⟩ = ⟨"N/A", "N/A", "N/A", []⟩ ∧
      format_movimento ⟨none, none, none⟩ = ⟨"N/A", "N/A", "N/A"⟩ ∧
      format_response ⟨some ⟨some ⟨some 0⟩, some []⟩⟩ = ⟨0, []⟩ := by
  refine ⟨?_, ?_, ?_, ?_, ?_, rfl, rfl, rfl, rfl, rfl⟩
  · intro r h; simp [format_response, h]
  · intro s h; simp [format_source, h]
  · intro pa h; simp [format_parte, h]
  · intro a h; simp [format_advogado, h, emptyRawPessoa]
  · intro m h; simp [format_movimento, h]

/-- C6 (witness): the defaulting conjuncts applied at fully absent data. -/
theorem missing_data_defaults_witness :
    (format_response ⟨none⟩).total_hits = 0 ∧
      (format_source emptyRawSource).numero_processo = "N/A" ∧
      (format_advogado ⟨none⟩).nome = "N/A" :=
  ⟨missing_data_defaults.1 ⟨none⟩ rfl,
   missing_data_defaults.2.1 emptyRawSource rfl,
   (missing_data_defaults.2.2.2.1 ⟨none⟩ rfl).1⟩

/-- C7: normalization yields one record per element of `hits.hits` in input
order, and preserves the length and relative order of `partes`, of each
party's `advogados`, and of `movimentos` — no sorting, filtering, or
deduplication (each output sequence is elementwise the image of its input
sequence). -/
theorem order_preserved (r : RawResponse) (s : RawSource) (pa : RawParte)
    (i : Nat) :
    ((format_response r).processes =
        ((r.hits.getD emptyRawHits).hits.getD []).map format_hit) ∧
      ((format_response r).processes.length =
        ((r.hits.getD emptyRawHits).hits.getD []).length) ∧
      ((format_response r).processes[i]? =
        (((r.hits.getD emptyRawHits).hits.getD [])[i]?).map format_hit) ∧
      ((format_source s).partes = (s.partes.getD []).map format_parte) ∧
      ((format_source s).partes.length = (s.partes.getD []).length) ∧
      ((format_source s).partes[i]? =
        ((s.partes.getD [])[i]?).map format_parte) ∧
      ((format_source s).movimentos =
        (s.movimentos.getD []).map format_movimento) ∧
      ((format_source s).movimentos.length = (s.movimentos.getD []).length) ∧
      ((format_source s).movimentos[i]? =
        ((s.movimentos.getD [])[i]?).map format_movimento) ∧
      ((format_parte pa).advogados = (pa.advogados.getD []).map format_advogado) ∧
      ((format_parte pa).advogados.length = (pa.advogados.getD []).length) ∧
      ((format_parte pa).advogados[i]? =
        ((pa.advogados.getD [])[i]?).map format_advogado) := by
  refine ⟨rfl, ?_, ?_, rfl, ?_, ?_, rfl, ?_, ?_, rfl, ?_, ?_⟩ <;>
    simp [format_response, format_source, format_parte, List.getElem?_map]

/-- C8: `build_process_number_query` returns exactly the documented body with
the identifier embedded verbatim (hyphen and dots retained), and all three
query variants set `size` to exactly 100. -/
theorem query_bodies_and_size (pn text f : String) :
    build_process_number_query pn =
      Json.obj [("query", Json.obj [("bool", Json.obj [("must", Json.arr
          [Json.obj [("match", Json.obj [("numeroProcesso", Json.str pn)])]])])]),
        ("size", Json.num 100)] ∧
      querySize (build_process_number_query pn) = some (Json.num 100) ∧
      querySize (build_text_search_query text none) = some (Json.num 100) ∧
      querySize (build_text_search_query text (some f)) = some (Json.num 100) :=
  ⟨rfl, rfl, rfl, rfl⟩

end Jusdata
